import Mathlib

/-
  Shallow embedding of the FLogFS core (src/src/flogfs.c).

  The flash driver (flash_open_page, flash_read_sector, flash_read_spare,
  flash_write_sector, flash_write_spare, flash_commit, flash_erase_block,
  flash_block_is_bad) is external to the repository.  Each typed read the
  source performs is modelled as a lookup of a designated field of the
  block being accessed; each write is a field update.  Machine integers
  are Nat with an explicit modulus where the source performs arithmetic
  on a fixed-width variable (uint16_t sector, uint32_t timestamps).

  flogfs_private.h is not part of the repository sources, so the media
  constants (FS_NUM_BLOCKS, FS_PAGES_PER_BLOCK, FS_SECTORS_PER_PAGE,
  FLOG_MAX_FNAME_LEN, sizeof(flog_file_sector0_header_t),
  FLOG_FILE_INVALIDATION_SECTOR) are carried in a configuration record,
  and the block-type and sentinel constants are fixed representative
  values (the sentinels are the all-ones patterns the source compares
  against literally: 0xFFFFFFFF for timestamps and file ids, 0xFFFF for
  block indices).
-/

/-- All-ones 32-bit pattern compared against timestamps in the source
(`timestamp_buffer == 0xFFFFFFFF`, `FLOG_TIMESTAMP_INVALID`). -/
def FLOG_TIMESTAMP_INVALID : Nat := 0xFFFFFFFF

/-- All-ones 32-bit pattern marking an unwritten file id
(`FLOG_FILE_ID_INVALID`). -/
def FLOG_FILE_ID_INVALID : Nat := 0xFFFFFFFF

/-- All-ones 16-bit pattern marking an unwritten block index
(`FLOG_BLOCK_IDX_INVALID`). -/
def FLOG_BLOCK_IDX_INVALID : Nat := 0xFFFF

/-- Modelled from the spec: the numeric values of the block-type tags are
in the missing header flogfs_private.h.  An erased spare is all-ones, so
the unallocated tag is the all-ones byte; the inode and file tags are
distinct representative values. -/
def FLOG_BLOCK_TYPE_UNALLOCATED : Nat := 0xFF

/-- Modelled from the spec: block-type tag for inode blocks (value from the
missing header; only distinctness from the other tags matters). -/
def FLOG_BLOCK_TYPE_INODE : Nat := 1

/-- Modelled from the spec: block-type tag for file blocks (value from the
missing header; only distinctness from the other tags matters). -/
def FLOG_BLOCK_TYPE_FILE : Nat := 2

/-- Media constants from the missing flogfs_private.h, carried abstractly. -/
structure FSConfig where
  numBlocks : Nat
  pagesPerBlock : Nat
  sectorsPerPage : Nat
  maxFnameLen : Nat
  sizeofFileSector0Header : Nat
  fileInvalidationSector : Nat
deriving DecidableEq

/-- flog_inode_file_allocation_t: the allocation record of an inode entry
(header fields file_id, first_block, first_block_age, timestamp, plus the
filename).  Pass 2 of mount reads only the header prefix
(flog_inode_file_allocation_header_t); flogfs_open_read reads the whole
record including the filename. -/
structure AllocRecord where
  fileId : Nat
  firstBlock : Nat
  firstBlockAge : Nat
  timestamp : Nat
  filename : String
deriving DecidableEq

/-- flog_inode_file_invalidation_t: the invalidation record of an inode
entry ({timestamp, last_block}). -/
structure InvalRecord where
  timestamp : Nat
  lastBlock : Nat
deriving DecidableEq

/-- One erase block of the medium.  Each field is the value a designated
read in the source returns for this block:
  - openPageOk p: result of flash_open_page(block, p)
  - bad: flash_block_is_bad() after opening page 0
  - eraseOk: result of flash_erase_block(block)
  - typeId, inodeIndex: sector-0 spare (flog_inode_sector0_spare_t)
  - inodeInvalTimestamp: read at FLOG_INODE_INVALIDATION_SECTOR
  - inodeAge, inodeTimestamp: flog_inode_sector0_t read at sector 0
  - inodeNextBlock: next_block read at FLOG_INODE_TAIL_SECTOR
  - fileTailTimestamp/NextBlock/NextAge: flog_file_tail_sector_header_t
    read at FLOG_FILE_TAIL_SECTOR
  - fileAge, fileId: flog_file_sector0_header_t read at sector 0
  - fileInvalTimestamp: read at FLOG_FILE_INVALIDATION_SECTOR
  - alloc s / inval s: inode entry records read at sector s
  - spareNbytes s: nbytes of the file-sector spare of sector s -/
structure FlashBlock where
  openPageOk : Nat → Bool
  bad : Bool
  eraseOk : Bool
  typeId : Nat
  inodeIndex : Nat
  inodeInvalTimestamp : Nat
  inodeAge : Nat
  inodeTimestamp : Nat
  inodeNextBlock : Nat
  fileTailTimestamp : Nat
  fileTailNextBlock : Nat
  fileTailNextAge : Nat
  fileAge : Nat
  fileId : Nat
  fileInvalTimestamp : Nat
  alloc : Nat → AllocRecord
  inval : Nat → InvalRecord
  spareNbytes : Nat → Nat

/-- The flash medium: a block for every index. -/
def Flash : Type := Nat → FlashBlock

/-- Point update of the medium at one block index. -/
def updateFlash (f : Flash) (i : Nat) (b : FlashBlock) : Flash :=
  fun j => if j = i then b else f j

/-- An erased allocation record: every stored field is its all-ones
sentinel (the filename bytes are all-ones; no valid name compares equal
because the file id already reads as invalid). -/
def erasedAlloc : AllocRecord :=
  { fileId := FLOG_FILE_ID_INVALID, firstBlock := FLOG_BLOCK_IDX_INVALID,
    firstBlockAge := 0xFFFFFFFF, timestamp := FLOG_TIMESTAMP_INVALID,
    filename := "" }

/-- Effect of flash_erase_block on a block: every stored value becomes the
all-ones pattern; physical properties (open results, badness, erasability)
are unchanged. -/
def erasedBlock (b : FlashBlock) : FlashBlock :=
  { openPageOk := b.openPageOk, bad := b.bad, eraseOk := b.eraseOk,
    typeId := FLOG_BLOCK_TYPE_UNALLOCATED, inodeIndex := 0xFFFF,
    inodeInvalTimestamp := FLOG_TIMESTAMP_INVALID,
    inodeAge := 0xFFFFFFFF, inodeTimestamp := 0xFFFFFFFF,
    inodeNextBlock := FLOG_BLOCK_IDX_INVALID,
    fileTailTimestamp := FLOG_TIMESTAMP_INVALID,
    fileTailNextBlock := FLOG_BLOCK_IDX_INVALID,
    fileTailNextAge := 0xFFFFFFFF,
    fileAge := 0xFFFFFFFF, fileId := FLOG_FILE_ID_INVALID,
    fileInvalTimestamp := FLOG_TIMESTAMP_INVALID,
    alloc := fun _ => erasedAlloc,
    inval := fun _ => { timestamp := FLOG_TIMESTAMP_INVALID,
                        lastBlock := FLOG_BLOCK_IDX_INVALID },
    spareNbytes := fun _ => 0xFFFF }

/-- Format's page-0 write to block 0: flog_inode_sector0_t {age = 0,
timestamp = 0} written to sector 0, spare {inode_index = 0,
type_id = FLOG_BLOCK_TYPE_INODE}, then flash_commit. -/
def writeInode0Header (b : FlashBlock) : FlashBlock :=
  { b with inodeAge := 0, inodeTimestamp := 0, inodeIndex := 0,
           typeId := FLOG_BLOCK_TYPE_INODE }

/-- Mount allocation-recovery's page-0 write: flog_file_sector0_header_t
{age, file_id} to sector 0 and spare {nbytes = 0, nothing = 0,
type_id = FLOG_BLOCK_TYPE_FILE} to spare 0, then flash_commit. -/
def writeFileBlockHeader (b : FlashBlock) (age fid : Nat) : FlashBlock :=
  { b with fileAge := age, fileId := fid, typeId := FLOG_BLOCK_TYPE_FILE,
           spareNbytes := fun s => if s = 0 then 0 else b.spareNbytes s }

/-- flog_result_t. -/
inductive FlogResult
  | success
  | failure
deriving DecidableEq, Repr

/-- Truthiness of a driver boolean as a flog_result_t. -/
def FlogResult.ofBool (b : Bool) : FlogResult :=
  if b then .success else .failure

/-- The global flogfs_t state (read/write head pointers are omitted: the
implemented portion of the source never touches them).  The two Bool
fields at the end model the FS mutex and the flash lock held state. -/
structure FlogFS where
  maxFileId : Nat
  maxBlockSequence : Nat
  firstAgeTableBlock : Nat
  firstFileTableBlock : Nat
  state : Nat
  t : Nat
  inode0 : Nat
  numFiles : Nat
  numFreeBlocks : Nat
  currentOpenBlock : Nat
  currentOpenPage : Nat
  pageOpen : Bool
  pageOpenResult : FlogResult
  fsLocked : Bool
  flashLocked : Bool
deriving DecidableEq

/-- The zero-initialised static flogfs after flogfs_init (state =
FLOG_STATE_RESET = 0, max_file_id = 0, max_block_sequence = 0,
page_open = 0; all other fields keep their static zero value). -/
def flogfsInitState : FlogFS :=
  { maxFileId := 0, maxBlockSequence := 0, firstAgeTableBlock := 0,
    firstFileTableBlock := 0, state := 0, t := 0, inode0 := 0,
    numFiles := 0, numFreeBlocks := 0, currentOpenBlock := 0,
    currentOpenPage := 0, pageOpen := false,
    pageOpenResult := FlogResult.success, fsLocked := false,
    flashLocked := false }

/-- flog_read_file_t fields touched by flogfs_open_read. -/
structure ReadFile where
  id : Nat
  block : Nat
  sector : Nat
  offset : Nat
  nbytesInSector : Nat
deriving DecidableEq

/-- flog_inode_iterator_t. -/
structure InodeIter where
  block : Nat
  nextBlock : Nat
  inodeIdx : Nat
  sector : Nat
deriving DecidableEq

/-- flog_open_page: single-entry page cache.  Returns the flog_result_t,
the updated state, and whether the flash driver was actually invoked (the
cached case performs no driver call and returns the stored result). -/
def flog_open_page (flash : Flash) (fs : FlogFS) (block page : Nat) :
    FlogResult × FlogFS × Bool :=
  if fs.pageOpen ∧ fs.currentOpenBlock = block ∧ fs.currentOpenPage = page then
    (fs.pageOpenResult, fs, false)
  else
    let r := FlogResult.ofBool ((flash block).openPageOk page)
    (r, { fs with pageOpenResult := r, pageOpen := true,
                  currentOpenBlock := block, currentOpenPage := page }, true)

/-- flog_open_sector: opens the page containing the sector. -/
def flog_open_sector (cfg : FSConfig) (flash : Flash) (fs : FlogFS)
    (block sector : Nat) : FlogResult × FlogFS × Bool :=
  flog_open_page flash fs block (sector / cfg.sectorsPerPage)

/-- flog_close_sector. -/
def flog_close_sector (fs : FlogFS) : FlogFS :=
  { fs with pageOpen := false }

/-- The cursor produced by flog_inode_iterator_init: block = inode0,
next_block read from inode0's tail sector, inode_idx = 0, sector =
FS_SECTORS_PER_PAGE (page 0 of an inode block is reserved). -/
def inodeIterStart (cfg : FSConfig) (flash : Flash) (inode0 : Nat) :
    InodeIter :=
  { block := inode0, nextBlock := (flash inode0).inodeNextBlock,
    inodeIdx := 0, sector := cfg.sectorsPerPage }

/-- flog_inode_iterator_init: opens page 0 of inode0 (through the cache)
and reads the tail sector.  Returns the updated state, the cursor, and
the number of flash driver calls made (open, if not cached, plus one
read). -/
def flog_inode_iterator_init (cfg : FSConfig) (flash : Flash) (fs : FlogFS)
    (inode0 : Nat) : FlogFS × InodeIter × Nat :=
  let o := flog_open_page flash fs inode0 0
  (o.2.1, inodeIterStart cfg flash inode0, (if o.2.2 then 1 else 0) + 1)

/-- The pure cursor transition of flog_inode_iterator_next: sector += 2
and inode_idx += 1 (uint16_t / uint32_t arithmetic); when the new sector
reaches FS_PAGES_PER_BLOCK * FS_SECTORS_PER_PAGE the cursor moves to
next_block, reloads next_block from that block's tail sector, and resets
sector to FS_SECTORS_PER_PAGE. -/
def inodeIterStep (cfg : FSConfig) (flash : Flash) (iter : InodeIter) :
    InodeIter :=
  let s2 := (iter.sector + 2) % 65536
  let idx2 := (iter.inodeIdx + 1) % 4294967296
  if cfg.pagesPerBlock * cfg.sectorsPerPage ≤ s2 then
    { block := iter.nextBlock,
      nextBlock := (flash iter.nextBlock).inodeNextBlock,
      inodeIdx := idx2, sector := cfg.sectorsPerPage }
  else
    { iter with sector := s2, inodeIdx := idx2 }

/-- flog_inode_iterator_next: the cursor transition together with its
page-cache effect and driver-call count (the rollover case opens page 0
of the next block and reads its tail sector). -/
def flog_inode_iterator_next (cfg : FSConfig) (flash : Flash) (fs : FlogFS)
    (iter : InodeIter) : FlogFS × InodeIter × Nat :=
  let s2 := (iter.sector + 2) % 65536
  let idx2 := (iter.inodeIdx + 1) % 4294967296
  if cfg.pagesPerBlock * cfg.sectorsPerPage ≤ s2 then
    let o := flog_open_page flash fs iter.nextBlock 0
    (o.2.1,
     { block := iter.nextBlock,
       nextBlock := (flash iter.nextBlock).inodeNextBlock,
       inodeIdx := idx2, sector := cfg.sectorsPerPage },
     (if o.2.2 then 1 else 0) + 1)
  else
    (fs, { iter with sector := s2, inodeIdx := idx2 }, 0)

/-- The erase loop of flogfs_format over blocks 0..n-1: open page 0 of
each block, skip bad blocks, erase the rest; a failing erase aborts with
FLOG_FAILURE (first component false).  The medium reached so far is
returned in either case. -/
def formatEraseLoop (flash : Flash) : Nat → Bool × Flash
  | 0 => (true, flash)
  | n + 1 =>
    match formatEraseLoop flash n with
    | (false, f) => (false, f)
    | (true, f) =>
      if (f n).bad then (true, f)
      else if (f n).eraseOk then
        (true, updateFlash f n (erasedBlock (f n)))
      else (false, f)

/-- flogfs_format: takes the FS lock, erases every non-bad block (failing
erase returns FLOG_FAILURE after unlocking both locks), then writes the
first inode block header to block 0 unconditionally and returns
FLOG_SUCCESS. -/
def flogfs_format (cfg : FSConfig) (flash : Flash) (fs : FlogFS) :
    FlogResult × FlogFS × Flash :=
  let fs1 := { fs with fsLocked := true }
  match formatEraseLoop flash cfg.numBlocks with
  | (false, f) =>
    (FlogResult.failure, { fs1 with fsLocked := false, flashLocked := false }, f)
  | (true, f) =>
    let f2 := updateFlash f 0 (writeInode0Header (f 0))
    (FlogResult.success, { fs1 with fsLocked := false, flashLocked := false }, f2)

/-- The local candidate/census variables of flogfs_mount.  last_allocation
and last_deletion are the crash-recovery candidates; the fields the C
code leaves uninitialised until first use (last_allocation.block is set
to FLOG_BLOCK_IDX_INVALID, its age/file_id and last_deletion's block
fields are uninitialised and modelled as 0: they are only read under the
corresponding timestamp > 0 guard, which implies they were assigned). -/
structure ScanState where
  lastAllocBlock : Nat
  lastAllocAge : Nat
  lastAllocFileId : Nat
  lastAllocTimestamp : Nat
  lastDelFirstBlock : Nat
  lastDelLastBlock : Nat
  lastDelFileId : Nat
  lastDelTimestamp : Nat
  numFreeBlocks : Nat
  inode0Idx : Nat
  maxBlockAge : Nat
deriving DecidableEq

/-- Initial values of mount's local data structures. -/
def initScanState : ScanState :=
  { lastAllocBlock := FLOG_BLOCK_IDX_INVALID, lastAllocAge := 0,
    lastAllocFileId := 0, lastAllocTimestamp := 0,
    lastDelFirstBlock := 0, lastDelLastBlock := 0,
    lastDelFileId := FLOG_FILE_ID_INVALID, lastDelTimestamp := 0,
    numFreeBlocks := 0, inode0Idx := FLOG_BLOCK_IDX_INVALID,
    maxBlockAge := 0 }

/-- One iteration of mount's pass-1 block census for block i: skip if
page 0 fails to open or the block is bad; otherwise dispatch on the
sector-0 spare type_id exactly as the switch in the source. -/
def scanBlockStep (flash : Flash) (s : ScanState) (i : Nat) : ScanState :=
  let b := flash i
  if !b.openPageOk 0 then s
  else if b.bad then s
  else if b.typeId = FLOG_BLOCK_TYPE_INODE then
    let s1 :=
      if b.inodeInvalTimestamp = FLOG_TIMESTAMP_INVALID ∧ b.inodeIndex = 0
      then { s with inode0Idx := i } else s
    if s1.maxBlockAge < b.inodeAge then { s1 with maxBlockAge := b.inodeAge }
    else s1
  else if b.typeId = FLOG_BLOCK_TYPE_FILE then
    let s1 :=
      if b.fileTailTimestamp = FLOG_TIMESTAMP_INVALID then s
      else if s.lastAllocTimestamp < b.fileTailTimestamp then
        { s with lastAllocTimestamp := b.fileTailTimestamp,
                 lastAllocBlock := b.fileTailNextBlock,
                 lastAllocAge := b.fileTailNextAge,
                 lastAllocFileId := b.fileId }
      else s
    if s1.maxBlockAge < b.fileAge then { s1 with maxBlockAge := b.fileAge }
    else s1
  else if b.typeId = FLOG_BLOCK_TYPE_UNALLOCATED then
    { s with numFreeBlocks := (s.numFreeBlocks + 1) % 65536 }
  else s

/-- Mount pass 1: the census fold over all block indices. -/
def mountScanP1 (cfg : FSConfig) (flash : Flash) : ScanState :=
  (List.range cfg.numBlocks).foldl (scanBlockStep flash) initScanState

/-- Mount pass 2: the inode-chain walk.  Each step opens the entry's
allocation sector and reads its header; a file_id of all-ones ends the
walk.  Otherwise the invalidation record is read, flogfs.max_file_id is
set to the entry's file_id, and the entry updates either the
last-allocation candidate (still valid, larger timestamp) or the
last-deletion candidate (invalidated, larger invalidation timestamp).
Fuel bounds the walk; none means the fuel ran out before the terminator
was found. -/
def mountPass2 (cfg : FSConfig) (flash : Flash) :
    Nat → FlogFS → InodeIter → ScanState → Option (FlogFS × ScanState)
  | 0, _, _, _ => none
  | fuel + 1, fs, iter, scan =>
    let o1 := flog_open_sector cfg flash fs iter.block iter.sector
    let fs1 := o1.2.1
    let a := (flash iter.block).alloc iter.sector
    if a.fileId = FLOG_FILE_ID_INVALID then
      some (fs1, scan)
    else
      let o2 := flog_open_sector cfg flash fs1 iter.block (iter.sector + 1)
      let fs2 := o2.2.1
      let v := (flash iter.block).inval (iter.sector + 1)
      let fs3 := { fs2 with maxFileId := a.fileId }
      let scan2 :=
        if v.timestamp = FLOG_TIMESTAMP_INVALID then
          if scan.lastAllocTimestamp < a.timestamp then
            { scan with lastAllocBlock := a.firstBlock,
                        lastAllocFileId := a.fileId,
                        lastAllocAge := a.firstBlockAge,
                        lastAllocTimestamp := a.timestamp }
          else scan
        else
          if scan.lastDelTimestamp < v.timestamp then
            { scan with lastDelFirstBlock := a.firstBlock,
                        lastDelLastBlock := v.lastBlock,
                        lastDelFileId := a.fileId,
                        lastDelTimestamp := v.timestamp }
          else scan
      let nx := flog_inode_iterator_next cfg flash fs3 iter
      mountPass2 cfg flash fuel nx.1 nx.2.1 scan2

/-- Mount's allocation recovery: if a candidate exists (timestamp > 0)
and the target block's sector-0 file_id differs from the candidate's,
the target is erased, its page-0 header {age, file_id} and spare
{type_id = FILE, nbytes = 0} are rewritten and committed, and flogfs.t
becomes candidate timestamp + 1 (uint32_t). -/
def allocRecoveryStep (cfg : FSConfig) (flash : Flash) (fs : FlogFS)
    (scan : ScanState) : FlogFS × Flash :=
  if 0 < scan.lastAllocTimestamp then
    let oa := flog_open_sector cfg flash fs scan.lastAllocBlock 0
    let fsa := oa.2.1
    if (flash scan.lastAllocBlock).fileId ≠ scan.lastAllocFileId then
      let flashE := updateFlash flash scan.lastAllocBlock
        (erasedBlock (flash scan.lastAllocBlock))
      let ob := flog_open_page flashE fsa scan.lastAllocBlock 0
      let flashW := updateFlash flashE scan.lastAllocBlock
        (writeFileBlockHeader (flashE scan.lastAllocBlock)
          scan.lastAllocAge scan.lastAllocFileId)
      ({ ob.2.1 with t := (scan.lastAllocTimestamp + 1) % 4294967296 },
       flashW)
    else (fsa, flash)
  else (fs, flash)

/-- Mount's deletion verification: if a candidate exists and its
last_block still carries the candidate's file_id, a programmed (not
all-ones) invalidation sector in that block makes mount fail; every
return path releases both locks. -/
def deletionCheckStep (cfg : FSConfig) (flash1 : Flash) (fs1 : FlogFS)
    (scan : ScanState) : FlogResult × FlogFS × Flash :=
  if 0 < scan.lastDelTimestamp then
    let oc := flog_open_sector cfg flash1 fs1 scan.lastDelLastBlock 0
    let fs2 := oc.2.1
    if (flash1 scan.lastDelLastBlock).fileId = scan.lastDelFileId then
      let od := flog_open_sector cfg flash1 fs2 scan.lastDelLastBlock
        cfg.fileInvalidationSector
      let fs3 := od.2.1
      if (flash1 scan.lastDelLastBlock).fileInvalTimestamp ≠
          FLOG_TIMESTAMP_INVALID then
        (FlogResult.failure,
         { fs3 with fsLocked := false, flashLocked := false }, flash1)
      else
        (FlogResult.success,
         { fs3 with fsLocked := false, flashLocked := false }, flash1)
    else
      (FlogResult.success,
       { fs2 with fsLocked := false, flashLocked := false }, flash1)
  else
    (FlogResult.success,
     { fs1 with fsLocked := false, flashLocked := false }, flash1)

/-- Mount pass 3: allocation recovery followed by deletion verification,
in the order the source performs them. -/
def mountRecovery (cfg : FSConfig) (flash : Flash) (fs : FlogFS)
    (scan : ScanState) : FlogResult × FlogFS × Flash :=
  let s1 := allocRecoveryStep cfg flash fs scan
  deletionCheckStep cfg s1.2 s1.1 scan

/-- flogfs_mount: take both locks, run the block census, fail if no valid
inode-index-0 block was seen, otherwise walk the inode chain and run
recovery.  none means the pass-2 fuel ran out. -/
def flogfs_mount (cfg : FSConfig) (flash : Flash) (fs : FlogFS)
    (fuel : Nat) : Option (FlogResult × FlogFS × Flash) :=
  let fs0 := { fs with fsLocked := true, flashLocked := true }
  let scan1 := mountScanP1 cfg flash
  if scan1.inode0Idx = FLOG_BLOCK_IDX_INVALID then
    some (FlogResult.failure,
          { fs0 with fsLocked := false, flashLocked := false }, flash)
  else
    let ini := flog_inode_iterator_init cfg flash fs0 scan1.inode0Idx
    match mountPass2 cfg flash fuel ini.1 ini.2.1 scan1 with
    | none => none
    | some (fs2, scan2) => some (mountRecovery cfg flash fs2 scan2)

/-- The loop of flogfs_open_read.  The two trailing Nat results count the
FS-lock acquisitions and the flash driver calls performed (each page open
that misses the cache, and each sector/spare read, is one driver call).
The success path of the source sets the cursor, breaks out of the loop
and then falls through the failure label, so every exit returns
FLOG_FAILURE after flash_unlock and fs_unlock. -/
def openReadLoop (cfg : FSConfig) (flash : Flash) (filename : String) :
    Nat → FlogFS → ReadFile → InodeIter → Nat → Nat →
    Option (FlogResult × FlogFS × ReadFile × Nat × Nat)
  | 0, _, _, _, _, _ => none
  | fuel + 1, fs, file, iter, locks, ops =>
    let o1 := flog_open_sector cfg flash fs iter.block iter.sector
    let fs1 := o1.2.1
    let ops1 := ops + (if o1.2.2 then 1 else 0) + 1
    let a := (flash iter.block).alloc iter.sector
    if a.fileId = FLOG_FILE_ID_INVALID then
      some (FlogResult.failure,
            { fs1 with fsLocked := false, flashLocked := false },
            file, locks, ops1)
    else if filename.take cfg.maxFnameLen ≠ a.filename.take cfg.maxFnameLen
    then
      let nx := flog_inode_iterator_next cfg flash fs1 iter
      openReadLoop cfg flash filename fuel nx.1 file nx.2.1 locks
        (ops1 + nx.2.2)
    else
      let o2 := flog_open_sector cfg flash fs1 iter.block (iter.sector + 1)
      let fs2 := o2.2.1
      let ops2 := ops1 + (if o2.2.2 then 1 else 0) + 1
      let v := (flash iter.block).inval (iter.sector + 1)
      if v.timestamp ≠ FLOG_TIMESTAMP_INVALID then
        let nx := flog_inode_iterator_next cfg flash fs2 iter
        openReadLoop cfg flash filename fuel nx.1 file nx.2.1 locks
          (ops2 + nx.2.2)
      else
        let file1 := { file with id := a.fileId, block := a.firstBlock }
        let o3 := flog_open_sector cfg flash fs2 file1.block 0
        let fs3 := o3.2.1
        let ops3 := ops2 + (if o3.2.2 then 1 else 0) + 1
        let nb0 := (flash file1.block).spareNbytes 0
        if nb0 ≠ 0 then
          let file2 := { file1 with
            sector := 0,
            offset := cfg.sizeofFileSector0Header,
            nbytesInSector := nb0 }
          some (FlogResult.failure,
                { fs3 with fsLocked := false, flashLocked := false },
                file2, locks, ops3)
        else
          let o4 := flog_open_sector cfg flash fs3 file1.block 1
          let fs4 := o4.2.1
          let ops4 := ops3 + (if o4.2.2 then 1 else 0) + 1
          let nb1 := (flash file1.block).spareNbytes 1
          let file2 := { file1 with
            sector := 1, offset := 0, nbytesInSector := nb1 }
          some (FlogResult.failure,
                { fs4 with fsLocked := false, flashLocked := false },
                file2, locks, ops4)

/-- flogfs_open_read: a filename of length ≥ FLOG_MAX_FNAME_LEN returns
FLOG_FAILURE at once (no lock, no flash access, handle untouched);
otherwise the FS lock is taken and the inode chain is walked from
flogfs.inode0. -/
def flogfs_open_read (cfg : FSConfig) (flash : Flash) (fs : FlogFS)
    (file : ReadFile) (filename : String) (fuel : Nat) :
    Option (FlogResult × FlogFS × ReadFile × Nat × Nat) :=
  if cfg.maxFnameLen ≤ filename.length then
    some (FlogResult.failure, fs, file, 0, 0)
  else
    let fs1 := { fs with fsLocked := true }
    let ini := flog_inode_iterator_init cfg flash fs1 fs.inode0
    openReadLoop cfg flash filename fuel ini.1 file ini.2.1 1 ini.2.2

/-- The sequence of file_ids stored in the inode chain, read with the
same cursor motion as mount's pass 2, up to (excluding) the first entry
whose allocation file_id is the all-ones terminator.  none if the fuel
runs out first. -/
def walkFileIds (cfg : FSConfig) (flash : Flash) :
    InodeIter → Nat → Option (List Nat)
  | _, 0 => none
  | iter, fuel + 1 =>
    let a := (flash iter.block).alloc iter.sector
    if a.fileId = FLOG_FILE_ID_INVALID then some []
    else
      (walkFileIds cfg flash (inodeIterStep cfg flash iter) fuel).map
        (fun l => a.fileId :: l)

/-- The file_ids mount's inode walk visits, starting from the inode0
block discovered by pass 1. -/
def mountWalkIds (cfg : FSConfig) (flash : Flash) (fuel : Nat) :
    Option (List Nat) :=
  walkFileIds cfg flash
    (inodeIterStart cfg flash (mountScanP1 cfg flash).inode0Idx) fuel

/-
  Concrete media used to evaluate the claims on explicit inputs.
-/

/-- A good, erased, erasable block: the state of a block right after a
successful erase on a healthy medium. -/
def goodErasedBlock : FlashBlock :=
  { openPageOk := fun _ => true, bad := false, eraseOk := true,
    typeId := FLOG_BLOCK_TYPE_UNALLOCATED, inodeIndex := 0xFFFF,
    inodeInvalTimestamp := FLOG_TIMESTAMP_INVALID,
    inodeAge := 0xFFFFFFFF, inodeTimestamp := 0xFFFFFFFF,
    inodeNextBlock := FLOG_BLOCK_IDX_INVALID,
    fileTailTimestamp := FLOG_TIMESTAMP_INVALID,
    fileTailNextBlock := FLOG_BLOCK_IDX_INVALID,
    fileTailNextAge := 0xFFFFFFFF,
    fileAge := 0xFFFFFFFF, fileId := FLOG_FILE_ID_INVALID,
    fileInvalTimestamp := FLOG_TIMESTAMP_INVALID,
    alloc := fun _ => erasedAlloc,
    inval := fun _ => { timestamp := FLOG_TIMESTAMP_INVALID,
                        lastBlock := FLOG_BLOCK_IDX_INVALID },
    spareNbytes := fun _ => 0xFFFF }

/-- A small concrete geometry: 4 blocks of 4 pages of 4 sectors, filename
limit 8, a 16-byte file sector-0 header, invalidation sector 14. -/
def cfgT : FSConfig :=
  { numBlocks := 4, pagesPerBlock := 4, sectorsPerPage := 4,
    maxFnameLen := 8, sizeofFileSector0Header := 16,
    fileInvalidationSector := 14 }

/-- An entirely erased healthy medium. -/
def flashEmpty : Flash := fun _ => goodErasedBlock

/-- A blank read-file handle. -/
def fileT : ReadFile :=
  { id := 0, block := 0, sector := 0, offset := 0, nbytesInSector := 0 }

/-
  Page-cache framing lemmas: flog_open_page touches only the four cache
  fields of the state.
-/

@[simp] theorem openPage_maxFileId (flash : Flash) (fs : FlogFS)
    (b p : Nat) : ((flog_open_page flash fs b p).2.1).maxFileId =
      fs.maxFileId := by
  unfold flog_open_page; split <;> rfl

@[simp] theorem openPage_t (flash : Flash) (fs : FlogFS) (b p : Nat) :
    ((flog_open_page flash fs b p).2.1).t = fs.t := by
  unfold flog_open_page; split <;> rfl

@[simp] theorem openPage_fsLocked (flash : Flash) (fs : FlogFS)
    (b p : Nat) : ((flog_open_page flash fs b p).2.1).fsLocked =
      fs.fsLocked := by
  unfold flog_open_page; split <;> rfl

@[simp] theorem openPage_flashLocked (flash : Flash) (fs : FlogFS)
    (b p : Nat) : ((flog_open_page flash fs b p).2.1).flashLocked =
      fs.flashLocked := by
  unfold flog_open_page; split <;> rfl

/-- Claim C9: flog_open_sector(b, s) behaves exactly as
flog_open_page(b, s / FS_SECTORS_PER_PAGE), and reopening the page that
the cache already holds performs no flash driver call and returns the
stored result of the original open. -/
theorem open_sector_translation_and_cache_noop (cfg : FSConfig)
    (flash : Flash) (fs : FlogFS) (b s p : Nat) :
    flog_open_sector cfg flash fs b s =
      flog_open_page flash fs b (s / cfg.sectorsPerPage) ∧
    flog_open_page flash ((flog_open_page flash fs b p).2.1) b p =
      ((flog_open_page flash fs b p).1,
       (flog_open_page flash fs b p).2.1, false) := by
  refine ⟨rfl, ?_⟩
  unfold flog_open_page
  by_cases h : fs.pageOpen = true ∧ fs.currentOpenBlock = b ∧
      fs.currentOpenPage = p
  · simp [h]
  · simp [h]

/-- Claim C10: a filename of length at least FLOG_MAX_FNAME_LEN makes
flogfs_open_read return FLOG_FAILURE at once: the FS lock is never
acquired, no flash driver operation runs, and the caller's handle and
the filesystem state are returned untouched. -/
theorem open_read_long_name_rejected (cfg : FSConfig) (flash : Flash)
    (fs : FlogFS) (file : ReadFile) (filename : String) (fuel : Nat)
    (h : cfg.maxFnameLen ≤ filename.length) :
    flogfs_open_read cfg flash fs file filename fuel =
      some (FlogResult.failure, fs, file, 0, 0) := by
  unfold flogfs_open_read
  simp [h]

/-- Witness for C10 at a concrete medium and the 8-character name
"abcdefgh" against the limit 8. -/
theorem open_read_long_name_rejected_witness :
    flogfs_open_read cfgT flashEmpty flogfsInitState fileT "abcdefgh" 3 =
      some (FlogResult.failure, flogfsInitState, fileT, 0, 0) :=
  open_read_long_name_rejected cfgT flashEmpty flogfsInitState fileT
    "abcdefgh" 3 (by decide)

/-- Claim C8: one iterator advance adds 2 to sector and 1 to inode_idx
(uint16_t/uint32_t arithmetic); when the incremented sector passes the
last entry pair of the block (reaches FS_PAGES_PER_BLOCK *
FS_SECTORS_PER_PAGE) the iterator moves to next_block, reloads
next_block from that block's tail sector, and resets sector to the first
entry sector FS_SECTORS_PER_PAGE. -/
theorem inode_iterator_next_spec (cfg : FSConfig) (flash : Flash)
    (fs : FlogFS) (iter : InodeIter) :
    ((flog_inode_iterator_next cfg flash fs iter).2.1).inodeIdx =
      (iter.inodeIdx + 1) % 4294967296 ∧
    ((iter.sector + 2) % 65536 < cfg.pagesPerBlock * cfg.sectorsPerPage →
      (flog_inode_iterator_next cfg flash fs iter).2.1 =
        { iter with sector := (iter.sector + 2) % 65536,
                    inodeIdx := (iter.inodeIdx + 1) % 4294967296 }) ∧
    (cfg.pagesPerBlock * cfg.sectorsPerPage ≤ (iter.sector + 2) % 65536 →
      (flog_inode_iterator_next cfg flash fs iter).2.1 =
        { block := iter.nextBlock,
          nextBlock := (flash iter.nextBlock).inodeNextBlock,
          inodeIdx := (iter.inodeIdx + 1) % 4294967296,
          sector := cfg.sectorsPerPage }) := by
  unfold flog_inode_iterator_next
  by_cases h : cfg.pagesPerBlock * cfg.sectorsPerPage ≤
      (iter.sector + 2) % 65536
  · simp [h]
  · simp [h]

/-- Witness for C8: a rollover step at sector 14 with the concrete
geometry (bound 16) lands on the next block with sector reset to 4. -/
theorem inode_iterator_next_spec_witness :
    (flog_inode_iterator_next cfgT flashEmpty flogfsInitState
        { block := 0, nextBlock := 5, inodeIdx := 0, sector := 14 }).2.1 =
      { block := 5, nextBlock := (flashEmpty 5).inodeNextBlock,
        inodeIdx := 1, sector := 4 } :=
  (inode_iterator_next_spec cfgT flashEmpty flogfsInitState
    { block := 0, nextBlock := 5, inodeIdx := 0, sector := 14 }).2.2
    (by decide)

/-- Inode head block holding one live entry {file_id = 1, first_block = 1,
filename "log"} at entry sector 4 (invalidation record all-ones). -/
def inodeBlockC1 : FlashBlock :=
  { goodErasedBlock with
    typeId := FLOG_BLOCK_TYPE_INODE, inodeIndex := 0,
    inodeAge := 0, inodeTimestamp := 0,
    alloc := fun s =>
      if s = 4 then
        { fileId := 1, firstBlock := 1, firstBlockAge := 0,
          timestamp := 1, filename := "log" }
      else erasedAlloc }

/-- File block 1 of the file "log": 13 bytes stored in sector 0. -/
def fileBlockC1 : FlashBlock :=
  { goodErasedBlock with
    typeId := FLOG_BLOCK_TYPE_FILE, fileId := 1, fileAge := 0,
    spareNbytes := fun s => if s = 0 then 13 else 0xFFFF }

/-- Medium with the single live file "log" whose first data block has a
nonzero sector-0 spare nbytes. -/
def flashC1 : Flash :=
  fun i => if i = 0 then inodeBlockC1
           else if i = 1 then fileBlockC1 else goodErasedBlock

/-- Claim C1 evaluated on the code: with a mounted state (inode0 = 0) and
the live matching file "log" whose first block's sector-0 spare nbytes is
13 ≠ 0, flogfs_open_read positions the handle exactly as the claim says
(sector 0, offset = sizeof(flog_file_sector0_header_t), nbytes_in_sector
= 13) but returns FLOG_FAILURE: the success path of the source breaks out
of the loop and falls through the failure label, and no return of
FLOG_SUCCESS exists in the function. -/
theorem open_read_sets_cursor_but_returns_failure :
    (flogfs_open_read cfgT flashC1 flogfsInitState fileT "log" 4).map
        (fun x => (x.1, x.2.2.1)) =
      some (FlogResult.failure,
            { id := 1, block := 1, sector := 0, offset := 16,
              nbytesInSector := 13 }) := by
  decide

/-- Inode head block at index 2 with no entries, age 5. -/
def inodeBlockC2 : FlashBlock :=
  { goodErasedBlock with
    typeId := FLOG_BLOCK_TYPE_INODE, inodeIndex := 0,
    inodeAge := 5, inodeTimestamp := 0 }

/-- Medium whose inode chain head sits at block 2; blocks 0, 1, 3 are
free. -/
def flashC2 : Flash :=
  fun i => if i = 2 then inodeBlockC2 else goodErasedBlock

/-- Claim C2 evaluated on the code: mount's census discovers inode0 = 2,
3 free blocks and max block age 5, and the mount returns FLOG_SUCCESS,
yet the returned state still carries the caller's inode0 = 0,
num_files = 0, num_free_blocks = 0 and t = 0: the source computes
inode0_idx, num_free_blocks and max_block_age in locals and never stores
them (flogfs_t has no max-block-age field at all), never assigns
num_files, and assigns t only inside allocation recovery. -/
theorem mount_computes_but_does_not_publish :
    (mountScanP1 cfgT flashC2).inode0Idx = 2 ∧
    (mountScanP1 cfgT flashC2).numFreeBlocks = 3 ∧
    (mountScanP1 cfgT flashC2).maxBlockAge = 5 ∧
    flogfsInitState.inode0 = 0 ∧
    (flogfs_mount cfgT flashC2 flogfsInitState 3).map
        (fun x => (x.1, x.2.1.inode0, x.2.1.numFiles,
                   x.2.1.numFreeBlocks, x.2.1.t)) =
      some (FlogResult.success, 0, 0, 0, 0) := by
  decide

/-- Inode head block with one deleted entry {file_id = 7, first_block = 1}
(allocation timestamp 3, invalidation record {timestamp 4,
last_block 1}). -/
def inodeBlockC5 : FlashBlock :=
  { goodErasedBlock with
    typeId := FLOG_BLOCK_TYPE_INODE, inodeIndex := 0,
    inodeAge := 0, inodeTimestamp := 0,
    alloc := fun s =>
      if s = 4 then
        { fileId := 7, firstBlock := 1, firstBlockAge := 0,
          timestamp := 3, filename := "f" }
      else erasedAlloc,
    inval := fun s =>
      if s = 5 then { timestamp := 4, lastBlock := 1 }
      else { timestamp := FLOG_TIMESTAMP_INVALID,
             lastBlock := FLOG_BLOCK_IDX_INVALID } }

/-- The deleted file's chain block: still carries file_id 7 and a
programmed (non-all-ones) invalidation sector, i.e. the deletion stalled
before the chain was cleaned. -/
def fileBlockC5 : FlashBlock :=
  { goodErasedBlock with
    typeId := FLOG_BLOCK_TYPE_FILE, fileId := 7, fileAge := 0,
    fileInvalTimestamp := 9 }

/-- Medium exhibiting a stalled deletion of file 7. -/
def flashC5 : Flash :=
  fun i => if i = 0 then inodeBlockC5
           else if i = 1 then fileBlockC5 else goodErasedBlock

/-- Claim C5 evaluated on the code: on the stalled-deletion medium, mount
returns FLOG_FAILURE and leaves the chain block byte-for-byte untouched
(no invalidation is performed): the source's deletion recovery only calls
flash_debug_error and jumps to the failure label (the "TODO: Actually go
and invalidate the chain now" is unimplemented). -/
theorem mount_stalled_deletion_returns_failure :
    (flogfs_mount cfgT flashC5 flogfsInitState 3).map (fun x => x.1) =
      some FlogResult.failure ∧
    (flogfs_mount cfgT flashC5 flogfsInitState 3).map (fun x => x.2.2 1) =
      some (flashC5 1) :=
  ⟨by decide, rfl⟩

/-- Counterexample to claim C6: on the stalled-deletion medium, mount
returns FLOG_FAILURE with max_file_id changed from 0 to 7 — the inode
walk's assignment to flogfs.max_file_id is not rolled back on the
failure path, so a failing flogfs_mount does not leave every field of
the filesystem state as it was before the call. -/
theorem mount_failure_state_not_restored :
    flogfsInitState.maxFileId = 0 ∧
    (flogfs_mount cfgT flashC5 flogfsInitState 3).map
        (fun x => (x.1, x.2.1.maxFileId)) =
      some (FlogResult.failure, 7) := by
  decide

/-- Framing of the deletion verification: it never writes flash, keeps
t and max_file_id, and clears both lock flags on every return path. -/
theorem deletionCheckStep_frame (cfg : FSConfig) (flash1 : Flash)
    (fs1 : FlogFS) (scan : ScanState) :
    (deletionCheckStep cfg flash1 fs1 scan).2.2 = flash1 ∧
    ((deletionCheckStep cfg flash1 fs1 scan).2.1).t = fs1.t ∧
    ((deletionCheckStep cfg flash1 fs1 scan).2.1).maxFileId =
      fs1.maxFileId ∧
    ((deletionCheckStep cfg flash1 fs1 scan).2.1).fsLocked = false ∧
    ((deletionCheckStep cfg flash1 fs1 scan).2.1).flashLocked = false := by
  unfold deletionCheckStep
  split_ifs <;> simp [flog_open_sector]

/-- Allocation recovery never touches max_file_id. -/
theorem allocRecoveryStep_maxFileId (cfg : FSConfig) (flash : Flash)
    (fs : FlogFS) (scan : ScanState) :
    ((allocRecoveryStep cfg flash fs scan).1).maxFileId = fs.maxFileId := by
  unfold allocRecoveryStep
  split_ifs <;> simp [flog_open_sector]

/-- Every exit of mount's recovery phase clears both lock flags (each
return path of the source runs flash_unlock and fs_unlock). -/
theorem mountRecovery_unlocks (cfg : FSConfig) (flash : Flash)
    (fs : FlogFS) (scan : ScanState) :
    ((mountRecovery cfg flash fs scan).2.1).fsLocked = false ∧
    ((mountRecovery cfg flash fs scan).2.1).flashLocked = false := by
  unfold mountRecovery
  exact ⟨(deletionCheckStep_frame cfg _ _ scan).2.2.2.1,
         (deletionCheckStep_frame cfg _ _ scan).2.2.2.2⟩

/-- Recovery never touches max_file_id. -/
theorem mountRecovery_maxFileId (cfg : FSConfig) (flash : Flash)
    (fs : FlogFS) (scan : ScanState) :
    ((mountRecovery cfg flash fs scan).2.1).maxFileId = fs.maxFileId := by
  unfold mountRecovery
  rw [(deletionCheckStep_frame cfg _ _ scan).2.2.1]
  exact allocRecoveryStep_maxFileId cfg flash fs scan

/-- Claim C6 (amended part): whenever flogfs_mount returns FLOG_FAILURE,
both the FS lock and the flash lock have been released in the returned
state. -/
theorem mount_failure_releases_locks (cfg : FSConfig) (flash : Flash)
    (fs : FlogFS) (fuel : Nat) (r : FlogResult) (fs2 : FlogFS) (fl : Flash)
    (hm : flogfs_mount cfg flash fs fuel = some (r, fs2, fl))
    (hr : r = FlogResult.failure) :
    fs2.fsLocked = false ∧ fs2.flashLocked = false := by
  have hu : ∀ out : FlogResult × FlogFS × Flash,
      flogfs_mount cfg flash fs fuel = some out →
      out.2.1.fsLocked = false ∧ out.2.1.flashLocked = false := by
    intro out hm2
    simp only [flogfs_mount] at hm2
    by_cases h0 : (mountScanP1 cfg flash).inode0Idx = FLOG_BLOCK_IDX_INVALID
    · rw [if_pos h0] at hm2
      obtain rfl := (Option.some.inj hm2).symm
      exact ⟨rfl, rfl⟩
    · rw [if_neg h0] at hm2
      rcases hp : mountPass2 cfg flash fuel
          ((flog_inode_iterator_init cfg flash
            { fs with fsLocked := true, flashLocked := true }
            (mountScanP1 cfg flash).inode0Idx).1)
          ((flog_inode_iterator_init cfg flash
            { fs with fsLocked := true, flashLocked := true }
            (mountScanP1 cfg flash).inode0Idx).2.1)
          (mountScanP1 cfg flash) with _ | ⟨fs3, scan3⟩
      · rw [hp] at hm2
        exact Option.noConfusion hm2
      · rw [hp] at hm2
        obtain rfl := (Option.some.inj hm2).symm
        exact mountRecovery_unlocks cfg flash fs3 scan3
  exact hu (r, fs2, fl) hm

/-- Witness for the amended C6 at a concrete failing mount (erased medium
with no inode block). -/
theorem mount_failure_releases_locks_witness :
    flogfsInitState.fsLocked = false ∧
    flogfsInitState.flashLocked = false :=
  mount_failure_releases_locks cfgT flashEmpty flogfsInitState 1
    FlogResult.failure flogfsInitState flashEmpty rfl rfl

/-- Claim C4: whenever a last-allocation candidate exists
(timestamp > 0) and the candidate's target block carries a sector-0
file_id different from the candidate's, mount's recovery erases the
target block, rewrites its page-0 header {age = announced age,
file_id = candidate file_id} with spare {type_id = FILE, nbytes = 0},
commits, and sets the FS clock t to the candidate timestamp + 1
(uint32_t). -/
theorem mount_alloc_recovery_rewrites_target (cfg : FSConfig)
    (flash : Flash) (fs : FlogFS) (scan : ScanState)
    (h1 : 0 < scan.lastAllocTimestamp)
    (h2 : (flash scan.lastAllocBlock).fileId ≠ scan.lastAllocFileId) :
    (mountRecovery cfg flash fs scan).2.2 scan.lastAllocBlock =
      writeFileBlockHeader (erasedBlock (flash scan.lastAllocBlock))
        scan.lastAllocAge scan.lastAllocFileId ∧
    ((mountRecovery cfg flash fs scan).2.1).t =
      (scan.lastAllocTimestamp + 1) % 4294967296 := by
  have hw : (allocRecoveryStep cfg flash fs scan).2 scan.lastAllocBlock =
      writeFileBlockHeader (erasedBlock (flash scan.lastAllocBlock))
        scan.lastAllocAge scan.lastAllocFileId ∧
      ((allocRecoveryStep cfg flash fs scan).1).t =
        (scan.lastAllocTimestamp + 1) % 4294967296 := by
    unfold allocRecoveryStep
    simp [h1, h2, updateFlash]
  have hf := deletionCheckStep_frame cfg
    (allocRecoveryStep cfg flash fs scan).2
    (allocRecoveryStep cfg flash fs scan).1 scan
  unfold mountRecovery
  rw [hf.1, hf.2.1]
  exact hw

/-- Witness for C4: a candidate {block 1, age 3, file_id 2, timestamp 5}
whose target block reads back the erased file_id, on the erased
medium. -/
def scanW4 : ScanState :=
  { initScanState with lastAllocTimestamp := 5, lastAllocBlock := 1,
                       lastAllocAge := 3, lastAllocFileId := 2 }

theorem mount_alloc_recovery_rewrites_target_witness :
    (mountRecovery cfgT flashEmpty flogfsInitState scanW4).2.2
        scanW4.lastAllocBlock =
      writeFileBlockHeader (erasedBlock (flashEmpty scanW4.lastAllocBlock))
        scanW4.lastAllocAge scanW4.lastAllocFileId ∧
    ((mountRecovery cfgT flashEmpty flogfsInitState scanW4).2.1).t =
      (scanW4.lastAllocTimestamp + 1) % 4294967296 :=
  mount_alloc_recovery_rewrites_target cfgT flashEmpty flogfsInitState
    scanW4 (by decide) (by decide)

/-- A bad block (otherwise healthy driver behaviour). -/
def badBlock0 : FlashBlock := { goodErasedBlock with bad := true }

/-- Two-block medium whose block 0 is bad and block 1 is good. -/
def flashC3 : Flash := fun i => if i = 0 then badBlock0 else goodErasedBlock

/-- Geometry with two blocks. -/
def cfgC3 : FSConfig := { cfgT with numBlocks := 2 }

/-- Counterexample to claim C3: on a medium with a good block (block 1)
but a bad block 0, flogfs_format returns FLOG_SUCCESS (it skips the bad
block's erase and still writes the inode header into block 0), yet the
following flogfs_mount returns FLOG_FAILURE because its census skips bad
blocks and therefore never finds an inode block. -/
theorem format_mount_good_block_fails :
    (flashC3 1).bad = false ∧
    (flogfs_format cfgC3 flashC3 flogfsInitState).1 = FlogResult.success ∧
    ((flogfs_mount cfgC3 (flogfs_format cfgC3 flashC3 flogfsInitState).2.2
        (flogfs_format cfgC3 flashC3 flogfsInitState).2.1 3).map
      (fun x => x.1)) = some FlogResult.failure := by
  decide

/-- The medium after format's erase pass over blocks 0..n-1: every
non-bad block among them is erased. -/
def eraseUpTo (flash : Flash) (n : Nat) : Flash :=
  fun i => if i < n ∧ (flash i).bad = false then erasedBlock (flash i)
           else flash i

/-- When every non-bad block below n erases successfully, format's erase
loop succeeds and produces exactly the pointwise-erased medium. -/
theorem formatEraseLoop_ok (flash : Flash) :
    ∀ n, (∀ i, i < n → (flash i).bad = false → (flash i).eraseOk = true) →
      formatEraseLoop flash n = (true, eraseUpTo flash n) := by
  intro n
  induction n with
  | zero =>
    intro _
    have h : eraseUpTo flash 0 = flash := by
      funext i
      simp [eraseUpTo]
    unfold formatEraseLoop
    rw [h]
  | succ n ih =>
    intro h
    have hn := ih (fun i hi => h i (Nat.lt_succ_of_lt hi))
    have hfn : eraseUpTo flash n n = flash n := by
      simp [eraseUpTo]
    unfold formatEraseLoop
    rw [hn]
    dsimp only
    rw [hfn]
    by_cases hb : (flash n).bad
    · rw [if_pos hb]
      have h2 : eraseUpTo flash n = eraseUpTo flash (n + 1) := by
        funext i
        unfold eraseUpTo
        by_cases hi : i < n
        · have h3 : i < n + 1 := by omega
          simp [hi, h3]
        · by_cases hieq : i = n
          · subst hieq
            simp [hb, hi]
          · have h3 : ¬ i < n + 1 := by omega
            simp [hi, h3]
      rw [h2]
    · have hb2 : (flash n).bad = false := by
        cases hq : (flash n).bad
        · rfl
        · exact absurd hq hb
      have hok : (flash n).eraseOk = true := h n (Nat.lt_succ_self n) hb2
      rw [if_neg hb, if_pos hok]
      have h2 : updateFlash (eraseUpTo flash n) n (erasedBlock (flash n)) =
          eraseUpTo flash (n + 1) := by
        funext i
        unfold updateFlash eraseUpTo
        by_cases hieq : i = n
        · subst hieq
          simp [hb2, Nat.lt_succ_self]
        · by_cases hi : i < n
          · have h3 : i < n + 1 := by omega
            simp [hieq, hi, h3]
          · have h3 : ¬ i < n + 1 := by omega
            simp [hieq, hi, h3]
      rw [h2]

/-- When every non-bad block erases successfully, format returns success
and the resulting medium is the erased one with the inode header written
into block 0. -/
theorem flogfs_format_ok (cfg : FSConfig) (flash : Flash) (fs : FlogFS)
    (he : ∀ i, i < cfg.numBlocks → (flash i).bad = false →
      (flash i).eraseOk = true) :
    flogfs_format cfg flash fs =
      (FlogResult.success,
       { fs with fsLocked := false, flashLocked := false },
       updateFlash (eraseUpTo flash cfg.numBlocks) 0
         (writeInode0Header (eraseUpTo flash cfg.numBlocks 0))) := by
  unfold flogfs_format
  rw [formatEraseLoop_ok flash cfg.numBlocks he]

/-- Pass-1 framing: a bad or unallocated block changes none of the
inode0 / last-allocation / last-deletion census results. -/
theorem scanBlockStep_keeps (F : Flash) (s : ScanState) (i : Nat)
    (h : (F i).bad = true ∨ (F i).typeId = FLOG_BLOCK_TYPE_UNALLOCATED) :
    (scanBlockStep F s i).inode0Idx = s.inode0Idx ∧
    (scanBlockStep F s i).lastAllocTimestamp = s.lastAllocTimestamp ∧
    (scanBlockStep F s i).lastDelTimestamp = s.lastDelTimestamp := by
  unfold scanBlockStep
  rcases h with h | h
  · by_cases ho : (F i).openPageOk 0
    · simp [ho, h]
    · simp [ho]
  · by_cases ho : (F i).openPageOk 0
    · by_cases hb : (F i).bad
      · simp [ho, hb]
      · simp [ho, hb, h, FLOG_BLOCK_TYPE_UNALLOCATED,
              FLOG_BLOCK_TYPE_INODE, FLOG_BLOCK_TYPE_FILE]
    · simp [ho]

/-- Pass-1 step on a valid inode-index-0 block records it as inode0 and
keeps both candidate timestamps. -/
theorem scanBlockStep_inode_head (F : Flash) (s : ScanState) (i : Nat)
    (ho : (F i).openPageOk 0 = true) (hb : (F i).bad = false)
    (ht : (F i).typeId = FLOG_BLOCK_TYPE_INODE)
    (hv : (F i).inodeInvalTimestamp = FLOG_TIMESTAMP_INVALID)
    (hx : (F i).inodeIndex = 0) :
    (scanBlockStep F s i).inode0Idx = i ∧
    (scanBlockStep F s i).lastAllocTimestamp = s.lastAllocTimestamp ∧
    (scanBlockStep F s i).lastDelTimestamp = s.lastDelTimestamp := by
  unfold scanBlockStep
  simp only [ho, hb, ht, hv, hx]
  split_ifs <;> simp_all

/-- On a freshly formatted medium (inode head at block 0, every other
in-range block bad or unallocated) the census finds inode0 = 0 and no
allocation or deletion candidates. -/
theorem scanP1_prefix (cfg : FSConfig) (F : Flash)
    (h0o : (F 0).openPageOk 0 = true) (h0b : (F 0).bad = false)
    (h0t : (F 0).typeId = FLOG_BLOCK_TYPE_INODE)
    (h0v : (F 0).inodeInvalTimestamp = FLOG_TIMESTAMP_INVALID)
    (h0x : (F 0).inodeIndex = 0)
    (hrest : ∀ i, 1 ≤ i → i < cfg.numBlocks →
      (F i).bad = true ∨ (F i).typeId = FLOG_BLOCK_TYPE_UNALLOCATED) :
    ∀ m, 1 ≤ m → m ≤ cfg.numBlocks →
      ((List.range m).foldl (scanBlockStep F) initScanState).inode0Idx = 0 ∧
      ((List.range m).foldl (scanBlockStep F)
        initScanState).lastAllocTimestamp = 0 ∧
      ((List.range m).foldl (scanBlockStep F)
        initScanState).lastDelTimestamp = 0 := by
  intro m hm
  induction m, hm using Nat.le_induction with
  | base =>
    intro _
    have hr1 : List.range 1 = [0] := rfl
    rw [hr1]
    simp only [List.foldl_cons, List.foldl_nil]
    have hh := scanBlockStep_inode_head F initScanState 0 h0o h0b h0t h0v h0x
    refine ⟨hh.1, ?_, ?_⟩
    · rw [hh.2.1]; rfl
    · rw [hh.2.2]; rfl
  | succ m hm ih =>
    intro hle
    have ihm := ih (by omega)
    rw [List.range_succ, List.foldl_append]
    simp only [List.foldl_cons, List.foldl_nil]
    have hkeep := scanBlockStep_keeps F
      ((List.range m).foldl (scanBlockStep F) initScanState) m
      (hrest m hm (by omega))
    exact ⟨by rw [hkeep.1]; exact ihm.1,
           by rw [hkeep.2.1]; exact ihm.2.1,
           by rw [hkeep.2.2]; exact ihm.2.2⟩

/-- A pass-2 walk that immediately reads the all-ones terminator stops
with the census unchanged. -/
theorem mountPass2_immediate_end (cfg : FSConfig) (flash : Flash)
    (fuel : Nat) (fs : FlogFS) (iter : InodeIter) (scan : ScanState)
    (h : ((flash iter.block).alloc iter.sector).fileId =
      FLOG_FILE_ID_INVALID) :
    mountPass2 cfg flash (fuel + 1) fs iter scan =
      some ((flog_open_sector cfg flash fs iter.block iter.sector).2.1,
            scan) := by
  unfold mountPass2
  simp [h]

/-- Recovery with no allocation and no deletion candidate succeeds. -/
theorem mountRecovery_no_candidates (cfg : FSConfig) (flash : Flash)
    (fs : FlogFS) (scan : ScanState)
    (h1 : scan.lastAllocTimestamp = 0) (h2 : scan.lastDelTimestamp = 0) :
    (mountRecovery cfg flash fs scan).1 = FlogResult.success := by
  unfold mountRecovery allocRecoveryStep deletionCheckStep
  simp [h1, h2]

/-- Mount succeeds on any medium whose census yields inode0 = 0 with no
candidates and whose block 0 has an empty (terminator-first) inode
chain. -/
theorem flogfs_mount_formatted_succeeds (cfg : FSConfig) (F : Flash)
    (fs : FlogFS) (fuel : Nat)
    (hs1 : (mountScanP1 cfg F).inode0Idx = 0)
    (hs2 : (mountScanP1 cfg F).lastAllocTimestamp = 0)
    (hs3 : (mountScanP1 cfg F).lastDelTimestamp = 0)
    (hend : ((F 0).alloc cfg.sectorsPerPage).fileId =
      FLOG_FILE_ID_INVALID) :
    (flogfs_mount cfg F fs (fuel + 1)).map (fun x => x.1) =
      some FlogResult.success := by
  have hrec : ∀ fs2 : FlogFS,
      (mountRecovery cfg F fs2 (mountScanP1 cfg F)).1 =
        FlogResult.success :=
    fun fs2 => mountRecovery_no_candidates cfg F fs2 _ hs2 hs3
  simp only [flogfs_mount]
  rw [if_neg (by rw [hs1]; decide)]
  rw [hs1]
  rw [mountPass2_immediate_end]
  · simp [hrec]
  · exact hend

/-- Claim C3 (amended): on any medium whose block 0 is good (non-bad,
page 0 opens) and whose non-bad blocks all erase successfully,
flogfs_format followed by flogfs_mount returns success from both
calls. -/
theorem format_then_mount_block0_good_succeeds (cfg : FSConfig)
    (flash : Flash) (fs : FlogFS) (fuel : Nat)
    (hn : 0 < cfg.numBlocks)
    (hb0 : (flash 0).bad = false)
    (ho0 : (flash 0).openPageOk 0 = true)
    (he : ∀ i, i < cfg.numBlocks → (flash i).bad = false →
      (flash i).eraseOk = true) :
    (flogfs_format cfg flash fs).1 = FlogResult.success ∧
    (flogfs_mount cfg (flogfs_format cfg flash fs).2.2
        (flogfs_format cfg flash fs).2.1 (fuel + 1)).map
      (fun x => x.1) = some FlogResult.success := by
  rw [flogfs_format_ok cfg flash fs he]
  refine ⟨rfl, ?_⟩
  have hcore : eraseUpTo flash cfg.numBlocks 0 = erasedBlock (flash 0) := by
    unfold eraseUpTo
    simp [hn, hb0]
  set F := updateFlash (eraseUpTo flash cfg.numBlocks) 0
    (writeInode0Header (eraseUpTo flash cfg.numBlocks 0)) with hF
  have hF0 : F 0 = writeInode0Header (erasedBlock (flash 0)) := by
    rw [hF]
    unfold updateFlash
    simp [hcore]
  have hFrest : ∀ i, 1 ≤ i → i < cfg.numBlocks →
      (F i).bad = true ∨ (F i).typeId = FLOG_BLOCK_TYPE_UNALLOCATED := by
    intro i h1 h2
    have hne : i ≠ 0 := by omega
    rw [hF]
    unfold updateFlash
    rw [if_neg hne]
    unfold eraseUpTo
    by_cases hbi : (flash i).bad = false
    · right
      rw [if_pos ⟨h2, hbi⟩]
      rfl
    · left
      rw [if_neg (fun hc => hbi hc.2)]
      cases hq : (flash i).bad
      · exact absurd hq hbi
      · rfl
  have hsc := scanP1_prefix cfg F
    (by rw [hF0]; exact ho0)
    (by rw [hF0]; exact hb0)
    (by rw [hF0]; rfl)
    (by rw [hF0]; rfl)
    (by rw [hF0]; rfl)
    hFrest cfg.numBlocks hn (le_refl _)
  exact flogfs_mount_formatted_succeeds cfg F _ fuel hsc.1 hsc.2.1 hsc.2.2
    (by rw [hF0]; rfl)

/-- Witness for the amended C3 at the concrete all-good erased medium. -/
theorem format_then_mount_block0_good_succeeds_witness :
    (flogfs_format cfgT flashEmpty flogfsInitState).1 =
      FlogResult.success ∧
    (flogfs_mount cfgT (flogfs_format cfgT flashEmpty flogfsInitState).2.2
        (flogfs_format cfgT flashEmpty flogfsInitState).2.1 (2 + 1)).map
      (fun x => x.1) = some FlogResult.success :=
  format_then_mount_block0_good_succeeds cfgT flashEmpty flogfsInitState 2
    (by decide) rfl rfl (fun i h1 h2 => rfl)

/-- The iterator's cursor transition does not depend on the page-cache
state. -/
theorem iterNext_cursor (cfg : FSConfig) (flash : Flash) (fs : FlogFS)
    (iter : InodeIter) :
    (flog_inode_iterator_next cfg flash fs iter).2.1 =
      inodeIterStep cfg flash iter := by
  unfold flog_inode_iterator_next inodeIterStep
  by_cases h : cfg.pagesPerBlock * cfg.sectorsPerPage ≤
      (iter.sector + 2) % 65536
  · simp [h]
  · simp [h]

/-- The iterator advance only touches the page cache, not max_file_id. -/
theorem iterNext_maxFileId (cfg : FSConfig) (flash : Flash) (fs : FlogFS)
    (iter : InodeIter) :
    ((flog_inode_iterator_next cfg flash fs iter).1).maxFileId =
      fs.maxFileId := by
  unfold flog_inode_iterator_next
  by_cases h : cfg.pagesPerBlock * cfg.sectorsPerPage ≤
      (iter.sector + 2) % 65536
  · simp [h]
  · simp [h]

/-- Pass 2 leaves max_file_id at the file_id of the last entry its walk
visits (or untouched when the chain is empty). -/
theorem mountPass2_maxFileId (cfg : FSConfig) (flash : Flash) :
    ∀ (fuel : Nat) (fs : FlogFS) (iter : InodeIter) (scan : ScanState)
      (out : FlogFS × ScanState) (L : List Nat),
      mountPass2 cfg flash fuel fs iter scan = some out →
      walkFileIds cfg flash iter fuel = some L →
      out.1.maxFileId = L.getLast?.getD fs.maxFileId := by
  intro fuel
  induction fuel with
  | zero =>
    intro fs iter scan out L hm _
    exact Option.noConfusion hm
  | succ n ih =>
    intro fs iter scan out L hm hw
    simp only [mountPass2] at hm
    simp only [walkFileIds] at hw
    by_cases hf : ((flash iter.block).alloc iter.sector).fileId =
        FLOG_FILE_ID_INVALID
    · rw [if_pos hf] at hm
      rw [if_pos hf] at hw
      obtain rfl := (Option.some.inj hm).symm
      obtain rfl := (Option.some.inj hw).symm
      simp [flog_open_sector]
    · rw [if_neg hf] at hm
      rw [if_neg hf] at hw
      rw [iterNext_cursor] at hm
      rcases hL : walkFileIds cfg flash (inodeIterStep cfg flash iter) n
          with _ | L2
      · rw [hL] at hw
        exact Option.noConfusion hw
      · rw [hL] at hw
        have hLeq := Option.some.inj hw
        have hmax := ih _ (inodeIterStep cfg flash iter) _ out L2 hm hL
        rw [iterNext_maxFileId] at hmax
        rw [← hLeq]
        cases L2 with
        | nil =>
          simpa using hmax
        | cons b t =>
          rw [List.getLast?_cons_cons]
          rcases hq : (b :: t).getLast? with _ | y
          · rw [List.getLast?_eq_none_iff] at hq
            exact absurd hq (List.cons_ne_nil b t)
          · rw [hq] at hmax
            simpa using hmax

/-- In a strictly increasing list the last element bounds every
element. -/
theorem chainLt_le_getLast : ∀ (L : List Nat) (y : Nat),
    List.Chain' (· < ·) L → L.getLast? = some y → ∀ x ∈ L, x ≤ y := by
  intro L
  induction L with
  | nil =>
    intro y _ _ x hx
    exact absurd hx (List.not_mem_nil x)
  | cons a t ih =>
    intro y hch hl x hx
    cases t with
    | nil =>
      simp only [List.getLast?_singleton, Option.some.injEq] at hl
      simp only [List.mem_singleton] at hx
      omega
    | cons b t2 =>
      rw [List.getLast?_cons_cons] at hl
      have hab : a < b := (List.chain'_cons.1 hch).1
      have hch2 : List.Chain' (· < ·) (b :: t2) := (List.chain'_cons.1 hch).2
      have hby : b ≤ y := ih y hch2 hl b (List.mem_cons_self b t2)
      rcases List.mem_cons.1 hx with rfl | hx2
      · omega
      · exact ih y hch2 hl x hx2

/-- Claim C7: after a successful mount whose inode walk visits the
strictly increasing, nonempty file_id sequence L, the stored max_file_id
is the last visited file_id and bounds every file_id ever allocated. -/
theorem mount_max_file_id_is_last_entry (cfg : FSConfig) (flash : Flash)
    (fs : FlogFS) (fuel : Nat) (r : FlogResult) (fs2 : FlogFS) (fl : Flash)
    (L : List Nat)
    (hm : flogfs_mount cfg flash fs fuel = some (r, fs2, fl))
    (hr : r = FlogResult.success)
    (hw : mountWalkIds cfg flash fuel = some L)
    (hchain : List.Chain' (· < ·) L)
    (hne : L ≠ []) :
    L.getLast? = some fs2.maxFileId ∧ ∀ x ∈ L, x ≤ fs2.maxFileId := by
  simp only [flogfs_mount] at hm
  by_cases h0 : (mountScanP1 cfg flash).inode0Idx = FLOG_BLOCK_IDX_INVALID
  · rw [if_pos h0] at hm
    have hEq := Option.some.inj hm
    have : r = FlogResult.failure := (congrArg Prod.fst hEq).symm
    rw [hr] at this
    exact FlogResult.noConfusion this
  · rw [if_neg h0] at hm
    rcases hp : mountPass2 cfg flash fuel
        ((flog_inode_iterator_init cfg flash
          { fs with fsLocked := true, flashLocked := true }
          (mountScanP1 cfg flash).inode0Idx).1)
        ((flog_inode_iterator_init cfg flash
          { fs with fsLocked := true, flashLocked := true }
          (mountScanP1 cfg flash).inode0Idx).2.1)
        (mountScanP1 cfg flash) with _ | ⟨fs3, scan3⟩
    · rw [hp] at hm
      exact Option.noConfusion hm
    · rw [hp] at hm
      have hEq := Option.some.inj hm
      have hfs2 : (mountRecovery cfg flash fs3 scan3).2.1 = fs2 := by
        rw [hEq]
      have hmax3 : fs2.maxFileId = fs3.maxFileId := by
        rw [← hfs2]
        exact mountRecovery_maxFileId cfg flash fs3 scan3
      have hpass := mountPass2_maxFileId cfg flash fuel
        ((flog_inode_iterator_init cfg flash
          { fs with fsLocked := true, flashLocked := true }
          (mountScanP1 cfg flash).inode0Idx).1)
        ((flog_inode_iterator_init cfg flash
          { fs with fsLocked := true, flashLocked := true }
          (mountScanP1 cfg flash).inode0Idx).2.1)
        (mountScanP1 cfg flash) (fs3, scan3) L hp hw
      rcases hq : L.getLast? with _ | y
      · rw [List.getLast?_eq_none_iff] at hq
        exact absurd hq hne
      · rw [hq] at hpass
        simp only [Option.getD_some] at hpass
        have hy : fs2.maxFileId = y := by rw [hmax3, hpass]
        refine ⟨by rw [hy], ?_⟩
        intro x hx
        rw [hy]
        exact chainLt_le_getLast L y hchain hq x hx

/-- Inode head block with one live entry {file_id = 5, first_block = 1,
allocation timestamp 9}. -/
def inodeBlockC7 : FlashBlock :=
  { goodErasedBlock with
    typeId := FLOG_BLOCK_TYPE_INODE, inodeIndex := 0,
    inodeAge := 0, inodeTimestamp := 0,
    alloc := fun s =>
      if s = 4 then
        { fileId := 5, firstBlock := 1, firstBlockAge := 0,
          timestamp := 9, filename := "a" }
      else erasedAlloc }

/-- The live file's first data block: file_id 5, no committed tail. -/
def fileBlockC7 : FlashBlock :=
  { goodErasedBlock with
    typeId := FLOG_BLOCK_TYPE_FILE, fileId := 5, fileAge := 0 }

/-- Medium with a single live file of file_id 5. -/
def flashC7 : Flash :=
  fun i => if i = 0 then inodeBlockC7
           else if i = 1 then fileBlockC7 else goodErasedBlock

/-- The result of mounting the C7 medium. -/
def c7Out : FlogResult × FlogFS × Flash :=
  (flogfs_mount cfgT flashC7 flogfsInitState 3).getD
    (FlogResult.failure, flogfsInitState, flashC7)

/-- Witness for C7: mounting the single-file medium walks the file_id
list [5] and stores 5 as max_file_id. -/
theorem mount_max_file_id_is_last_entry_witness :
    [5].getLast? = some (c7Out.2.1.maxFileId) :=
  (mount_max_file_id_is_last_entry cfgT flashC7 flogfsInitState 3
    FlogResult.success c7Out.2.1 flashC7 [5] rfl rfl (by decide)
    (by simp) (by decide)).1
